import Mathlib

/-! Verification of the resolution and lifecycle layer of portapak
    (src/lib/types.rs). External collaborators (gio file loading, blocking
    reqwest, libflatpak native constructors) are modelled as explicit
    environments of oracle functions, and each embedded function that
    performs external calls additionally returns the list of native
    requests it issues, so that which call is made with which arguments is
    provable. A Rust panic (unwrap of a failed value) is a distinguished
    outcome, separate from errors returned through the question-mark
    operator. -/

namespace Portapak

/-- Raw byte content, as produced by glib Bytes, gio file loads and
reqwest response bodies. -/
abbrev Bytes := List Nat

/-- Opaque payload of a libflatpak glib error. -/
structure GlibError where
  msg : String
deriving DecidableEq

/-- Opaque payload of a std io error. -/
structure IOError where
  msg : String
deriving DecidableEq

/-- Opaque payload of a reqwest transport error (connection, DNS,
timeout, or a failure while reading the response body). -/
structure ReqwestError where
  msg : String
deriving DecidableEq

/-- Mirrors enum FlatpakExtError: the three-domain error union. The
middle variant is named IOErr here; in the source it carries the bare
name of the io error domain. -/
inductive FlatpakExtError where
  | Glib (e : GlibError)
  | IOErr (e : IOError)
  | Reqwest (e : ReqwestError)
deriving DecidableEq

/-- Result of running a fallible Rust computation: success, an error
returned through the question-mark operator, or a panic caused by
calling unwrap on a failed value. -/
inductive Outcome (α : Type) where
  | ok (a : α)
  | err (e : FlatpakExtError)
  | panicked
deriving DecidableEq

/-- Model of a received blocking reqwest response. The status field
records the HTTP status code; reqwest does not turn a non-success status
into an Err, so the get oracle may return ok with any status. The body
field is the result of the bytes() call that drains the response body,
which can fail with a transport error. -/
structure HttpResponse where
  status : Nat
  body : Except ReqwestError Bytes

/-- External world of uri_to_bytes: gio file loading
(File::for_path(p).load_bytes(...)) keyed by the path string handed to
for_path, and reqwest::blocking::get keyed by the uri. -/
structure ByteEnv where
  fs : String → Except GlibError Bytes
  http : String → Except ReqwestError HttpResponse

/-- Trace entry: one external input/output request performed by
uri_to_bytes. -/
inductive IORequest where
  | fileLoad (path : String)
  | httpGet (uri : String)
deriving DecidableEq

/-- Embedding of Rust str::starts_with for a string pattern. -/
def strStartsWith (s p : String) : Bool :=
  p.data.isPrefixOf s.data

/-- Index of the first occurrence of pat in s, counting from i. An empty
pattern matches at the current position, as in Rust str::find. -/
def findSubAux : List Char → List Char → Nat → Option Nat
  | [], pat, i => if pat.isEmpty then some i else none
  | c :: rest, pat, i =>
    if pat.isPrefixOf (c :: rest) then some i else findSubAux rest pat (i + 1)

/-- Embedding of Rust str::split_once: splits at the first occurrence of
delim and returns the parts strictly before and strictly after it. -/
def strSplitOnce (s delim : String) : Option (String × String) :=
  match findSubAux s.data delim.data 0 with
  | none => none
  | some i => some (⟨s.data.take i⟩, ⟨s.data.drop (i + delim.data.length)⟩)

/-- Embedding of Rust str::contains for a string pattern: split_once
succeeds exactly when the pattern occurs somewhere in the string. -/
def containsSub (s pat : String) : Bool :=
  (strSplitOnce s pat).isSome

/-- Embedding of uri_to_bytes (src/lib/types.rs, lines 122 to 134).
Notes on the translation, kept faithful to the source:
the branch condition is uri.starts_with with the literal pattern;
in the file branch the source passes split_once(..).unwrap().0 to
gio File::for_path, which is the part of the uri BEFORE the first
occurrence of the pattern (split_once returns the pair before/after);
in the network branch the source writes reqwest::blocking::get(uri)?
(error propagated as the Reqwest variant) and then .bytes().unwrap(),
which panics when draining the body fails, and the response status is
never inspected. The second component of the result is the list of
external requests issued. -/
def uri_to_bytes (env : ByteEnv) (uri : String) :
    Outcome Bytes × List IORequest :=
  if strStartsWith uri "file://" then
    match strSplitOnce uri "file://" with
    | none => (Outcome.panicked, [])
    | some pr =>
      ((match env.fs pr.fst with
        | Except.error e => Outcome.err (FlatpakExtError.Glib e)
        | Except.ok b => Outcome.ok b),
       [IORequest.fileLoad pr.fst])
  else
    ((match env.http uri with
      | Except.error e => Outcome.err (FlatpakExtError.Reqwest e)
      | Except.ok resp =>
        match resp.body with
        | Except.error _ => Outcome.panicked
        | Except.ok b => Outcome.ok b),
     [IORequest.httpGet uri])

/-- Model of a native libflatpak::Remote object: its resolved name as
read back by name(), and its default branch. Both are optional in the
native API. -/
structure NativeRemote where
  name : Option String
  defaultBranch : Option String
deriving DecidableEq

/-- Embedding of the native set_default_branch setter. -/
def set_default_branch (r : NativeRemote) (b : String) : NativeRemote :=
  ⟨r.name, some b⟩

/-- Mirrors struct Remote (src/lib/types.rs): a remote to download from,
with a uri to a flatpakrepo descriptor, a provisional name, and a
default branch. -/
structure Remote where
  uri : String
  name : String
  default_branch : String
deriving DecidableEq

/-- Mirrors impl Default for Remote: the well-known flathub repository
descriptor. -/
def Remote.default : Remote :=
  ⟨"https://dl.flathub.org/repo/flathub.flatpakrepo", "flathub", "stable"⟩

/-- Mirrors Remote::new: a bare uri, serving as its own name, with
default branch master. -/
def Remote.new (uri : String) : Remote :=
  ⟨uri, uri, "master"⟩

/-- Embedding of impl TryFrom of Remote for libflatpak::Remote
(src/lib/types.rs, lines 108 to 120). The fromFile oracle models
libflatpak::Remote::from_file, keyed by the registration name and the
fetched bytes. After parsing, the source unwraps the resolved name read
back from the native object (a panic when absent) and forces the default
branch to stable exactly when that name equals flathub. -/
def remote_try_from (benv : ByteEnv)
    (fromFile : String → Bytes → Except GlibError NativeRemote)
    (value : Remote) : Outcome NativeRemote :=
  match (uri_to_bytes benv value.uri).fst with
  | Outcome.panicked => Outcome.panicked
  | Outcome.err e => Outcome.err e
  | Outcome.ok bs =>
    match fromFile value.name bs with
    | Except.error e => Outcome.err (FlatpakExtError.Glib e)
    | Except.ok remote =>
      match remote.name with
      | none => Outcome.panicked
      | some n =>
        if n = "flathub" then Outcome.ok (set_default_branch remote "stable")
        else Outcome.ok remote

/-- Opaque native installation handle. -/
structure Installation where
  id : Nat
deriving DecidableEq

/-- Opaque native bundle reference handle. -/
structure BundleRef where
  id : Nat
deriving DecidableEq

/-- Opaque native remote reference handle. -/
structure RemoteRef where
  id : Nat
deriving DecidableEq

/-- Mirrors libflatpak RefKind. -/
inductive RefKind where
  | App
  | Runtime
deriving DecidableEq

/-- A filesystem path as a list of components, mirroring PathBuf at the
granularity the source needs: join of a single relative separator-free
component, parent, and final component. -/
abbrev PathBuf := List String

/-- Mirrors enum Flatpak: a locally available bundle file, or a package
identifier to download from a remote. -/
inductive Flatpak where
  | Bundle (path : PathBuf)
  | Download (appId : String)
deriving DecidableEq

/-- Mirrors enum FlatpakOut: the resolved, installation-bound
counterpart of Flatpak. -/
inductive FlatpakOut where
  | Bundle (b : BundleRef)
  | Download (r : RemoteRef)
deriving DecidableEq

/-- External world of convert_to_flatpak_out: BundleRef::new keyed by the
bundle path, fetch_remote_ref_sync keyed by the installation it is called
on plus its arguments, and the platform default architecture. -/
structure FetchEnv where
  bundleNew : PathBuf → Except GlibError BundleRef
  fetchRemoteRef : Installation → String → RefKind → String →
    Option String → Option String → Except GlibError RemoteRef
  defaultArch : Option String

/-- Trace entry: one native libflatpak call performed by
convert_to_flatpak_out, with the arguments it was given. -/
inductive NativeCall where
  | callBundleNew (path : PathBuf)
  | callFetchRemoteRef (inst : Installation) (remoteName : String)
      (kind : RefKind) (appId : String) (arch : Option String)
      (branch : Option String)
deriving DecidableEq

/-- Embedding of Flatpak::convert_to_flatpak_out (src/lib/types.rs,
lines 47 to 77). The Bundle arm opens the path as a local bundle through
the bundleNew oracle and touches none of the other arguments. The
Download arm unwraps the name of the given native remote (a panic when
absent) and asks the installation for the remote ref of the package
identifier, with kind Runtime exactly when is_runtime, the platform
default architecture, and Some of the supplied branch. The second
component of the result is the list of native calls issued. -/
def convert_to_flatpak_out (env : FetchEnv) (self : Flatpak)
    (installation : Installation) (remote : NativeRemote) (branch : String)
    ( is_runtime : Bool) : Outcome FlatpakOut × List NativeCall :=
  match self with
  | Flatpak.Bundle path =>
    ((match env.bundleNew path with
      | Except.error e => Outcome.err (FlatpakExtError.Glib e)
      | Except.ok bundle => Outcome.ok (FlatpakOut.Bundle bundle)),
     [NativeCall.callBundleNew path])
  | Flatpak.Download app_id =>
    match remote.name with
    | none => (Outcome.panicked, [])
    | some n =>
      ((match env.fetchRemoteRef installation n
          (if is_runtime then RefKind.Runtime else RefKind.App) app_id
          env.defaultArch (some branch) with
        | Except.error e => Outcome.err (FlatpakExtError.Glib e)
        | Except.ok r => Outcome.ok (FlatpakOut.Download r)),
       [NativeCall.callFetchRemoteRef installation n
          (if is_runtime then RefKind.Runtime else RefKind.App) app_id
          env.defaultArch (some branch)])

/-- Mirrors enum Repo: the four-variant repository handle. -/
inductive Repo where
  | Temp (path : PathBuf)
  | System
  | User
  | Static (path : PathBuf) (user : Bool)
deriving DecidableEq

/-- Mirrors the derived Default for Repo, whose default attribute sits on
the System variant. -/
def Repo.default : Repo := Repo.System

/-- External world of get_installation: Installation::for_path keyed by
the path and the user flag, and the argument-free Installation
constructors new_system and new_user. -/
structure InstallEnv where
  forPath : PathBuf → Bool → Except GlibError Installation
  newSystem : Except GlibError Installation
  newUser : Except GlibError Installation

/-- Embedding of get_installation (src/lib/types.rs, lines 180 to 206).
Each arm makes exactly one native constructor call; any native error is
propagated through the question-mark operator as the Glib variant. -/
def get_installation (env : InstallEnv) (value : Repo) :
    Except FlatpakExtError Installation :=
  match value with
  | Repo.Temp path => (env.forPath path true).mapError FlatpakExtError.Glib
  | Repo.Static path user =>
      (env.forPath path user).mapError FlatpakExtError.Glib
  | Repo.System => env.newSystem.mapError FlatpakExtError.Glib
  | Repo.User => env.newUser.mapError FlatpakExtError.Glib

/-- The 62-character table rand uses for the Alphanumeric distribution:
uppercase letters, lowercase letters, digits. -/
def alphanumericCharset : List Char :=
  "ABCDEFGHIJKLMNOPQRSTUVWXYZabcdefghijklmnopqrstuvwxyz0123456789".data

/-- One draw from the Alphanumeric distribution: an index into the
62-character table. The rand crate guarantees the index is in range by
construction, so the draw is modelled as a value of Fin 62. -/
def sampleAlphanumeric (k : Fin 62) : Char :=
  alphanumericCharset.get (Fin.cast (rfl) k)

/-- PathBuf::join with a relative, separator-free component pushes one
component; the only call site joins the literal .tmp marker followed by
alphanumeric characters, which is such a component. -/
def pathJoin (p : PathBuf) (s : String) : PathBuf := p ++ [s]

/-- The foldername built in Repo::temp_in: seven draws from the
Alphanumeric distribution, collected into a string. The rng argument is
the stream of draws produced by thread_rng().sample_iter(&Alphanumeric),
treated as the opaque random primitive the spec leaves out of scope. -/
def randomSuffix (rng : Nat → Fin 62) : String :=
  ⟨(List.range 7).map fun i => sampleAlphanumeric (rng i)⟩

/-- Embedding of Repo::temp_in (src/lib/types.rs, lines 159 to 168):
join the base path with the .tmp marker followed by the 7-character
random suffix, and wrap it in the Temp variant. -/
def Repo.temp_in (rng : Nat → Fin 62) (path : PathBuf) : Repo :=
  Repo.Temp (pathJoin path (".tmp" ++ randomSuffix rng))

/-- Embedding of Repo::temp (src/lib/types.rs, lines 153 to 157):
temp_in applied to the system temp directory, which env::temp_dir
supplies and which is modelled as the tempDir argument. -/
def Repo.temp (rng : Nat → Fin 62) (tempDir : PathBuf) : Repo :=
  Repo.temp_in rng tempDir

/-- Concrete environment for witnesses: every file read yields the byte 7
and every network fetch yields status 200 with body byte 9. -/
def envW : ByteEnv :=
  ⟨fun _ => Except.ok [7], fun _ => Except.ok ⟨200, Except.ok [9]⟩⟩

/-- Concrete environment: the server answers with status 404 and a
readable error page body. -/
def envStatusW : ByteEnv :=
  ⟨fun _ => Except.error ⟨"no file read"⟩,
   fun _ => Except.ok ⟨404, Except.ok [104, 105]⟩⟩

/-- Concrete environment: the GET itself succeeds but draining the
response body fails with a transport error. -/
def envBodyFailW : ByteEnv :=
  ⟨fun _ => Except.error ⟨"no file read"⟩,
   fun _ => Except.ok ⟨200, Except.error ⟨"connection reset while reading body"⟩⟩⟩

/-- Concrete parse oracle: parsing resolves to the name flathub with
default branch master. -/
def fromFileFlathubW : String → Bytes → Except GlibError NativeRemote :=
  fun _ _ => Except.ok ⟨some "flathub", some "master"⟩

/-- Concrete parse oracle: parsing yields a native remote with no
name. -/
def fromFileNoNameW : String → Bytes → Except GlibError NativeRemote :=
  fun _ _ => Except.ok ⟨none, some "master"⟩

/-- Concrete fetch environment for witnesses. -/
def fenvW : FetchEnv :=
  ⟨fun _ => Except.ok ⟨1⟩, fun _ _ _ _ _ _ => Except.ok ⟨2⟩, some "x86_64"⟩

/-- Concrete installation handle for witnesses. -/
def instW : Installation := ⟨0⟩

theorem findSubAux_self (s p : List Char) (h : p.isPrefixOf s = true) :
    findSubAux s p 0 = some 0 := by
  cases s with
  | nil =>
    cases p with
    | nil => rfl
    | cons a as =>
      exact Bool.noConfusion h
  | cons c rest =>
    simp [findSubAux, h]

theorem strSplitOnce_of_strStartsWith (s p : String)
    (h : strStartsWith s p = true) :
    strSplitOnce s p = some ("", ⟨s.data.drop p.data.length⟩) := by
  have hfind : findSubAux s.data p.data 0 = some 0 :=
    findSubAux_self s.data p.data h
  unfold strSplitOnce
  rw [hfind]
  show some ((⟨s.data.take 0⟩ : String), (⟨s.data.drop (0 + p.data.length)⟩ : String)) =
    some ("", (⟨s.data.drop p.data.length⟩ : String))
  rw [List.take_zero, Nat.zero_add]

theorem sampleAlphanumeric_mem (k : Fin 62) :
    sampleAlphanumeric k ∈ alphanumericCharset :=
  List.get_mem _ _ _

/-- Claim C1. The claim states that for a uri beginning with the literal
prefix file:// the path passed to the local file read equals the uri with
the prefix removed. The code instead passes the component of split_once
BEFORE the first occurrence of the pattern, which is always the empty
string on this branch: the file load request is issued for the empty
path, for every file:// uri and every environment (and no network request
is made). -/
theorem uri_to_bytes_file_branch_passes_empty_path (env : ByteEnv)
    (uri : String) (h : strStartsWith uri "file://" = true) :
    (uri_to_bytes env uri).snd = [IORequest.fileLoad ""] := by
  have hsplit := strSplitOnce_of_strStartsWith uri "file://" h
  simp [uri_to_bytes, h, hsplit]

/-- Witness for claim C1 at the failing input: resolving the uri
file:///tmp/repo.flatpakrepo issues a file load for the empty path
rather than for /tmp/repo.flatpakrepo. -/
theorem uri_to_bytes_file_branch_passes_empty_path_witness :
    (uri_to_bytes envW "file:///tmp/repo.flatpakrepo").snd =
      [IORequest.fileLoad ""] :=
  uri_to_bytes_file_branch_passes_empty_path envW
    "file:///tmp/repo.flatpakrepo" (by decide)

/-- Claim C2. For every conversion of a Remote descriptor into a native
remote that succeeds, the default branch is forced to stable exactly when
the resolved name read back from the parsed native object equals flathub;
when the resolved name is not flathub the parsed native object is
returned unchanged, default branch included. -/
theorem remote_try_from_flathub_branch_override (benv : ByteEnv)
    (fromFile : String → Bytes → Except GlibError NativeRemote)
    (value : Remote) (bs : Bytes) (p : NativeRemote) (n : String)
    (h1 : (uri_to_bytes benv value.uri).fst = Outcome.ok bs)
    (h2 : fromFile value.name bs = Except.ok p)
    (h3 : p.name = some n) :
    (n = "flathub" →
      remote_try_from benv fromFile value =
        Outcome.ok (set_default_branch p "stable"))
    ∧ (n ≠ "flathub" →
      remote_try_from benv fromFile value = Outcome.ok p) := by
  constructor
  · intro hn
    simp [remote_try_from, h1, h2, h3, hn]
  · intro hn
    simp [remote_try_from, h1, h2, h3, hn]

/-- Witness for claim C2: converting the default flathub descriptor in a
concrete environment whose parse resolves the name flathub with default
branch master yields the parsed object with its branch forced to
stable. -/
theorem remote_try_from_flathub_branch_override_witness :
    ("flathub" = "flathub" →
      remote_try_from envW fromFileFlathubW Remote.default =
        Outcome.ok (set_default_branch ⟨some "flathub", some "master"⟩ "stable"))
    ∧ ("flathub" ≠ "flathub" →
      remote_try_from envW fromFileFlathubW Remote.default =
        Outcome.ok ⟨some "flathub", some "master"⟩) :=
  remote_try_from_flathub_branch_override envW fromFileFlathubW
    Remote.default [9] ⟨some "flathub", some "master"⟩ "flathub"
    rfl rfl rfl

/-- Counterexample for claim C3. The claim states every failure on the
network path, non-success statuses and body-read failures included, is
returned as the NetworkError variant. At the concrete uri
http://example.com/repo.flatpakrepo: in an environment answering status
404 with a readable error page, the code returns the page body as
success; in an environment whose GET succeeds but whose body read fails,
the code panics. Neither is an error return. -/
theorem uri_to_bytes_network_error_claim_counterexample :
    (uri_to_bytes envStatusW "http://example.com/repo.flatpakrepo").fst =
      Outcome.ok [104, 105]
    ∧ (uri_to_bytes envBodyFailW "http://example.com/repo.flatpakrepo").fst =
      Outcome.panicked :=
  ⟨rfl, rfl⟩

/-- Claim C3 as amended. For every uri not beginning with file://,
uri_to_bytes performs exactly one blocking HTTP GET and no retry and no
file read; a failure of the GET call itself is returned as the Reqwest
(network) variant of the error union; the status of a received response
is never inspected, so its body is returned as success whenever the body
read succeeds; and a failure while reading the response body panics
rather than being returned as an error. -/
theorem uri_to_bytes_network_branch_characterization (env : ByteEnv)
    (uri : String) (h : strStartsWith uri "file://" = false) :
    (uri_to_bytes env uri).snd = [IORequest.httpGet uri]
    ∧ (uri_to_bytes env uri).fst =
        match env.http uri with
        | Except.error e => Outcome.err (FlatpakExtError.Reqwest e)
        | Except.ok resp =>
          match resp.body with
          | Except.error _ => Outcome.panicked
          | Except.ok b => Outcome.ok b := by
  constructor
  · simp [uri_to_bytes, h]
  · simp [uri_to_bytes, h]

/-- Witness for the amended claim C3 at a concrete uri and environment:
exactly one GET is issued and the successfully drained body comes back as
success. -/
theorem uri_to_bytes_network_branch_characterization_witness :
    (uri_to_bytes envW "http://example.com/a").snd =
      [IORequest.httpGet "http://example.com/a"]
    ∧ (uri_to_bytes envW "http://example.com/a").fst = Outcome.ok [9] :=
  ⟨(uri_to_bytes_network_branch_characterization envW
      "http://example.com/a" (by decide)).1,
   (uri_to_bytes_network_branch_characterization envW
      "http://example.com/a" (by decide)).2⟩

/-- Claim C5. get_installation branches exactly per variant: Temp builds
a path-bound native installation with the user flag always true (so it
coincides with a Static handle at the same path with user set to true);
Static passes the caller-supplied user flag through unchanged; System and
User build the canonical system and user installations with no path
argument. -/
theorem get_installation_per_variant (env : InstallEnv) (path : PathBuf)
    (user : Bool) :
    get_installation env (Repo.Temp path) =
      (env.forPath path true).mapError FlatpakExtError.Glib
    ∧ get_installation env (Repo.Static path user) =
      (env.forPath path user).mapError FlatpakExtError.Glib
    ∧ get_installation env (Repo.Temp path) =
      get_installation env (Repo.Static path true)
    ∧ get_installation env Repo.System =
      env.newSystem.mapError FlatpakExtError.Glib
    ∧ get_installation env Repo.User =
      env.newUser.mapError FlatpakExtError.Glib :=
  ⟨rfl, rfl, rfl, rfl, rfl⟩

/-- Claim C6. Resolving a Bundle source depends only on the path: the
installation, remote and branch arguments do not influence the result,
the only native call is the bundle constructor on the path, and on
success the result wraps the bundle reference. Resolving a Download
source asks the given installation for the remote ref of the package
identifier under the name of the given remote, with kind Runtime exactly
when is_runtime, the platform default architecture and the supplied
branch, and on success the result wraps that remote reference. -/
theorem convert_to_flatpak_out_per_variant (env : FetchEnv)
    (path : PathBuf) (appId : String) (i1 i2 : Installation)
    (r1 r2 : NativeRemote) (b1 b2 : String) (rt : Bool) (n : String)
    (bundle : BundleRef) (rr : RemoteRef)
    (hn : r1.name = some n)
    (hb : env.bundleNew path = Except.ok bundle)
    (hr : env.fetchRemoteRef i1 n
      (if rt then RefKind.Runtime else RefKind.App) appId
      env.defaultArch (some b1) = Except.ok rr) :
    convert_to_flatpak_out env (Flatpak.Bundle path) i1 r1 b1 rt =
      convert_to_flatpak_out env (Flatpak.Bundle path) i2 r2 b2 rt
    ∧ convert_to_flatpak_out env (Flatpak.Bundle path) i1 r1 b1 rt =
      (Outcome.ok (FlatpakOut.Bundle bundle), [NativeCall.callBundleNew path])
    ∧ convert_to_flatpak_out env (Flatpak.Download appId) i1 r1 b1 rt =
      (Outcome.ok (FlatpakOut.Download rr),
       [NativeCall.callFetchRemoteRef i1 n
          (if rt then RefKind.Runtime else RefKind.App) appId
          env.defaultArch (some b1)]) := by
  refine ⟨rfl, ?_, ?_⟩
  · simp [convert_to_flatpak_out, hb]
  · simp [convert_to_flatpak_out, hn, hr]

/-- Witness for claim C6 at concrete arguments: the bundle arm gives the
same answer under two different installation, remote and branch contexts
and wraps the concrete bundle reference; the download arm issues the
fetch call with the resolved remote name, kind App for is_runtime false,
the default architecture and the supplied branch. -/
theorem convert_to_flatpak_out_per_variant_witness :
    convert_to_flatpak_out fenvW (Flatpak.Bundle ["app.flatpak"]) instW
      ⟨some "flathub", some "stable"⟩ "stable" false =
      convert_to_flatpak_out fenvW (Flatpak.Bundle ["app.flatpak"]) ⟨5⟩
      ⟨some "other", none⟩ "beta" false
    ∧ convert_to_flatpak_out fenvW (Flatpak.Bundle ["app.flatpak"]) instW
      ⟨some "flathub", some "stable"⟩ "stable" false =
      (Outcome.ok (FlatpakOut.Bundle ⟨1⟩),
       [NativeCall.callBundleNew ["app.flatpak"]])
    ∧ convert_to_flatpak_out fenvW (Flatpak.Download "org.example.App") instW
      ⟨some "flathub", some "stable"⟩ "stable" false =
      (Outcome.ok (FlatpakOut.Download ⟨2⟩),
       [NativeCall.callFetchRemoteRef instW "flathub"
          (if false then RefKind.Runtime else RefKind.App) "org.example.App"
          fenvW.defaultArch (some "stable")]) :=
  convert_to_flatpak_out_per_variant fenvW ["app.flatpak"]
    "org.example.App" instW ⟨5⟩ ⟨some "flathub", some "stable"⟩
    ⟨some "other", none⟩ "stable" "beta" false "flathub" ⟨1⟩ ⟨2⟩
    rfl rfl rfl

/-- Claim C7. A uri that contains the substring file:// anywhere other
than as a true prefix is classified as a non-local source: the prefix
check fails and the network branch is taken, issuing exactly one GET and
no file read. -/
theorem uri_to_bytes_substring_not_local (env : ByteEnv) (uri : String)
    (_hc : containsSub uri "file://" = true)
    (hp : strStartsWith uri "file://" = false) :
    (uri_to_bytes env uri).snd = [IORequest.httpGet uri] := by
  simp [uri_to_bytes, hp]

/-- Witness for claim C7: a uri embedding file:// after its scheme is
fetched over the network. -/
theorem uri_to_bytes_substring_not_local_witness :
    (uri_to_bytes envW "http://host/file://embedded").snd =
      [IORequest.httpGet "http://host/file://embedded"] :=
  uri_to_bytes_substring_not_local envW "http://host/file://embedded"
    (by decide) (by decide)

/-- Claim C8. For every random stream and base path, temp_in returns a
Temp handle whose path is the base extended by one component consisting
of the fixed marker .tmp followed by exactly seven characters drawn from
the alphanumeric table, so the parent of the generated path is the base;
and temp is temp_in applied to the system temp directory. -/
theorem temp_in_path_shape (rng : Nat → Fin 62) (base : PathBuf)
    (d : PathBuf) :
    ∃ s : String,
      Repo.temp_in rng base = Repo.Temp (base ++ [".tmp" ++ s])
      ∧ (base ++ [".tmp" ++ s]).dropLast = base
      ∧ (base ++ [".tmp" ++ s]).getLast? = some (".tmp" ++ s)
      ∧ s.data.length = 7
      ∧ (∀ c ∈ s.data, c ∈ alphanumericCharset)
      ∧ Repo.temp rng d = Repo.temp_in rng d := by
  refine ⟨randomSuffix rng, rfl, ?_, ?_, ?_, ?_, rfl⟩
  · simp
  · simp
  · simp [randomSuffix]
  · intro c hc
    simp only [randomSuffix, List.mem_map] at hc
    obtain ⟨i, _, rfl⟩ := hc
    exact sampleAlphanumeric_mem (rng i)

/-- Claim C9. Default construction of Repo yields the System variant, so
a default-constructed handle resolves to the canonical system-wide
installation rather than the per-user one. -/
theorem repo_default_is_system :
    Repo.default = Repo.System
    ∧ ∀ env : InstallEnv,
        get_installation env Repo.default =
          env.newSystem.mapError FlatpakExtError.Glib :=
  ⟨rfl, fun _ => rfl⟩

/-- Claim C10. Both the descriptor conversion and the Download resolution
unwrap the name of the native remote: when the native object reports no
name, each operation panics instead of returning a value or an error of
the union. -/
theorem unwrapped_remote_name_panics (benv : ByteEnv)
    (fromFile : String → Bytes → Except GlibError NativeRemote)
    (value : Remote) (bs : Bytes) (p : NativeRemote) (fenv : FetchEnv)
    (inst : Installation) (rem : NativeRemote) (branch : String)
    (rt : Bool) (appId : String)
    (h1 : (uri_to_bytes benv value.uri).fst = Outcome.ok bs)
    (h2 : fromFile value.name bs = Except.ok p)
    (h3 : p.name = none)
    (h4 : rem.name = none) :
    remote_try_from benv fromFile value = Outcome.panicked
    ∧ (convert_to_flatpak_out fenv (Flatpak.Download appId) inst rem
        branch rt).fst = Outcome.panicked := by
  constructor
  · simp [remote_try_from, h1, h2, h3]
  · simp [convert_to_flatpak_out, h4]

/-- Witness for claim C10: a parse that resolves no name makes the
conversion panic, and a nameless native remote makes the Download
resolution panic. -/
theorem unwrapped_remote_name_panics_witness :
    remote_try_from envW fromFileNoNameW Remote.default = Outcome.panicked
    ∧ (convert_to_flatpak_out fenvW (Flatpak.Download "org.example.App")
        instW ⟨none, some "master"⟩ "stable" false).fst =
      Outcome.panicked :=
  unwrapped_remote_name_panics envW fromFileNoNameW Remote.default [9]
    ⟨none, some "master"⟩ fenvW instW ⟨none, some "master"⟩ "stable"
    false "org.example.App" rfl rfl rfl rfl

end Portapak
